import Mathlib

/- Formal model of the t2scrap price-comparison engine (`src/main.py`).

   Modelling conventions (shallow embedding):
   * Python `str` values under processing are `List Char`; identifiers such as
     platform or currency names are `String`.
   * Python `float` prices are `ℚ` (the exact decimal values produced by the
     parsing routines; `inf`/`nan`/exponent forms are outside the model).
   * Unicode-dependent Python behaviour (`str.lower`, regex `\s`, `\d`) is
     modelled on its ASCII fragment; every property proved is insensitive to
     the exact case/space tables beyond that fragment.
   * Filesystem state (the cache directory) is an association list keyed by
     the cache key string; the `md5` hexdigest applied to the key in
     `_get_cache_path` is modelled as the identity on keys (collisions of the
     digest are outside the model).
   * Exceptions are `Except`/`Option`; a caught-and-ignored exception branch
     becomes the corresponding pure fallback. -/

/-- Python whitespace as tested by `str.split`, `str.strip` and regex `\s`
(ASCII fragment). -/
def pyIsSpace (c : Char) : Bool :=
  c = ' ' || c = '\t' || c = '\n' || c = '\r' || c = '\x0b' || c = '\x0c'

/-- `str.strip()`: drop leading and trailing whitespace. -/
def pyStrip (s : List Char) : List Char :=
  ((s.dropWhile pyIsSpace).reverse.dropWhile pyIsSpace).reverse

/-- `str.split()` with no argument: the whitespace-separated words, no empties. -/
def pyWords : List Char → List (List Char)
  | [] => []
  | c :: cs =>
    if pyIsSpace c then pyWords cs
    else
      (c :: cs).takeWhile (fun d => ¬ pyIsSpace d) ::
        pyWords ((c :: cs).dropWhile (fun d => ¬ pyIsSpace d))
termination_by s => s.length
decreasing_by
  · simp only [List.length_cons]; omega
  · have h1 : List.dropWhile (fun d => ¬ pyIsSpace d) (c :: cs) <:+ c :: cs :=
      List.dropWhile_suffix _
    have h2 := h1.length_le
    simp only [List.length_cons]
    have h4 := (@List.dropWhile_suffix _ cs
      (fun d => decide ¬ pyIsSpace d = true)).length_le
    simp_all
    omega

/-- `clean_text` (main.py:165): collapse internal whitespace runs to single
spaces and trim the ends. -/
def clean_text (text : List Char) : List Char :=
  if text = [] then []
  else pyStrip (List.intercalate [' '] (pyWords text))

/-- Python substring test `pat in s`. -/
def containsSub (pat : List Char) : List Char → Bool
  | [] => pat.isEmpty
  | c :: cs => pat.isPrefixOf (c :: cs) || containsSub pat cs

/-- Python `s.replace(pat, '')` for a pattern: remove every (left-to-right,
non-overlapping) occurrence of `pat`. The empty pattern removes nothing. -/
def removeAll (pat : List Char) : List Char → List Char
  | [] => []
  | c :: cs =>
    if pat ≠ [] ∧ pat.isPrefixOf (c :: cs) then
      removeAll pat ((c :: cs).drop pat.length)
    else c :: removeAll pat cs
termination_by s => s.length
decreasing_by
  · rename_i h
    have hp : 0 < pat.length := List.length_pos.mpr h.1
    simp only [List.length_drop, List.length_cons]
    omega
  · simp only [List.length_cons]; omega

/-- ASCII `str.lower()` on one character. -/
def asciiLower (c : Char) : Char :=
  if c.isUpper then Char.ofNat (c.toNat + 32) else c

/-- Case-insensitive prefix test (used for the regex-based currency-code
stripping, whose alternatives are all ASCII). -/
def matchesCI (pat : List Char) (s : List Char) : Bool :=
  (pat.map asciiLower) == ((s.take pat.length).map asciiLower)

/-- The alternatives of the regex `(USD|INR|EUR|GBP|NPR|BDT|PKR|LKR)` in
`extract_price` (main.py:154). -/
def currencyCodes : List (List Char) :=
  ["USD".data, "INR".data, "EUR".data, "GBP".data,
   "NPR".data, "BDT".data, "PKR".data, "LKR".data]

/-- `re.sub(r'(USD|INR|EUR|GBP|NPR|BDT|PKR|LKR)', '', text, flags=IGNORECASE)`:
each alternative has length 3, so the leftmost-match scan removes a
case-insensitive occurrence of any code and continues after it. -/
def stripCurrencyCodes : List Char → List Char
  | [] => []
  | c :: cs =>
    if currencyCodes.any (fun p => matchesCI p (c :: cs)) then
      stripCurrencyCodes ((c :: cs).drop 3)
    else c :: stripCurrencyCodes cs
termination_by s => s.length
decreasing_by
  · simp only [List.length_drop, List.length_cons]; omega
  · simp only [List.length_cons]; omega

/-- The ordered symbol table of `extract_price` (main.py:141, Python dict
insertion order). -/
def currency_map : List (List Char × String) :=
  [("$".data, "USD"), ("£".data, "GBP"), ("€".data, "EUR"), ("¥".data, "JPY"),
   ("₹".data, "INR"), ("Rs".data, "INR"), ("Rs.".data, "INR"), ("NPR".data, "NPR"),
   ("৳".data, "BDT"), ("Tk".data, "BDT"), ("PKR".data, "PKR"), ("රු".data, "LKR")]

/-- Greedy continuation of the regex `\d+(?:\.\d{1,2})?` at a position whose
first character is a digit. -/
def grabDecimal (s : List Char) : List Char :=
  let ds := s.takeWhile Char.isDigit
  match s.drop ds.length with
  | '.' :: r =>
    let fs := (r.takeWhile Char.isDigit).take 2
    if fs = [] then ds else ds ++ '.' :: fs
  | _ => ds

/-- `re.search(r'(\d+(?:\.\d{1,2})?)', text)`: the leftmost match, or `none`. -/
def findDecimal : List Char → Option (List Char)
  | [] => none
  | c :: cs => if c.isDigit then some (grabDecimal (c :: cs)) else findDecimal cs

/-- Value of an ASCII digit string. -/
def digitsToNat (ds : List Char) : ℕ :=
  ds.foldl (fun acc c => acc * 10 + (c.toNat - 48)) 0

/-- `float()` applied to a matched `\d+(?:\.\d{1,2})?` token (always parses;
the value is exact as a rational). -/
def decToRat (tok : List Char) : ℚ :=
  let ip := tok.takeWhile Char.isDigit
  match tok.drop ip.length with
  | '.' :: fs => (digitsToNat ip : ℚ) + (digitsToNat fs : ℚ) / ((10 : ℚ) ^ fs.length)
  | _ => (digitsToNat ip : ℚ)

/-- `extract_price` (main.py:136): detect and strip a currency symbol using the
priority-ordered table, strip embedded currency codes, drop thousands
separators and spaces, then parse the first decimal token. -/
def extract_price (text : List Char) (default_currency : String) :
    Option ℚ × String :=
  if text = [] then (none, default_currency)
  else
    let text₁ := pyStrip text
    match currency_map.find? (fun sc => containsSub sc.1 text₁) with
    | some sc =>
      let text₂ := stripCurrencyCodes (removeAll sc.1 text₁)
      let text₃ := pyStrip (removeAll [' '] (removeAll [','] text₂))
      ((findDecimal text₃).map decToRat, sc.2)
    | none =>
      let text₂ := stripCurrencyCodes text₁
      let text₃ := pyStrip (removeAll [' '] (removeAll [','] text₂))
      ((findDecimal text₃).map decToRat, default_currency)

/-- A character kept by the first substitution of `slugify`
(`re.sub(r'[^a-zA-Z0-9\s-]', '', ...)`, ASCII fragment). -/
def isSlugKeep (c : Char) : Bool :=
  c.isAlpha || c.isDigit || pyIsSpace c || c = '-'

/-- `re.sub(r'\s+', '-', s)`: replace each maximal whitespace run by one
hyphen. -/
def wsRunsToHyphen : List Char → List Char
  | [] => []
  | c :: cs =>
    if pyIsSpace c then '-' :: wsRunsToHyphen (cs.dropWhile pyIsSpace)
    else c :: wsRunsToHyphen cs
termination_by s => s.length
decreasing_by
  · have := (@List.dropWhile_suffix _ cs pyIsSpace).length_le
    simp only [List.length_cons]
    omega
  · simp only [List.length_cons]; omega

/-- `re.sub(r'-+', '-', s)`: collapse each maximal hyphen run to one hyphen. -/
def collapseHyphens : List Char → List Char
  | [] => []
  | c :: cs =>
    if c = '-' then '-' :: collapseHyphens (cs.dropWhile (fun d => d = '-'))
    else c :: collapseHyphens cs
termination_by s => s.length
decreasing_by
  · have := (@List.dropWhile_suffix _ cs (fun d => d = '-')).length_le
    simp only [List.length_cons]
    omega
  · simp only [List.length_cons]; omega

/-- `s.strip('-')`: drop leading and trailing hyphens. -/
def stripHyphens (s : List Char) : List Char :=
  ((s.dropWhile (fun c => c = '-')).reverse.dropWhile (fun c => c = '-')).reverse

/-- Python slice `s[:n]` for an `int` bound: a non-negative bound clamps at
the length; a negative bound counts from the end, keeping the first
`max(len(s) + n, 0)` characters. -/
def pySliceTo (n : ℤ) (l : List Char) : List Char :=
  if 0 ≤ n then l.take n.toNat
  else l.take (l.length - (-n).toNat)

/-- `slugify` (main.py:171): lower-case, delete characters outside
`[a-zA-Z0-9\s-]`, turn whitespace runs into hyphens, collapse hyphen runs,
slice to `max_length` — a Python `int`, so a negative bound keeps a prefix
that drops characters from the end — and strip boundary hyphens. -/
def slugify (text : List Char) (max_length : ℤ) : List Char :=
  let slug₁ := (text.map asciiLower).filter isSlugKeep
  let slug₂ := wsRunsToHyphen slug₁
  let slug₃ := collapseHyphens slug₂
  stripHyphens (pySliceTo max_length slug₃)

/-- `Product` (main.py:67). `timestamp` is the extraction-time string supplied
by the ambient clock. -/
structure Product where
  platform : String
  name : List Char
  price : ℚ
  currency : String
  original_price : Option ℚ := none
  discount_percent : Option ℚ := none
  url : List Char := []
  image_url : List Char := []
  rating : Option ℚ := none
  reviews_count : Option ℤ := none
  seller : List Char := []
  is_prime : Bool := false
  free_shipping : Bool := false
  in_stock : Bool := true
  condition : List Char := "New".data
  timestamp : String := ""
deriving DecidableEq, Repr

/-- `Product.savings` (main.py:90): `original_price - price` when an original
price is present, truthy and larger (rounding of an exact difference of
two-decimal values is the identity and is omitted). -/
def Product.savings (p : Product) : Option ℚ :=
  match p.original_price with
  | some o => if o ≠ 0 ∧ o > p.price then some (o - p.price) else none
  | none => none

/-- `SearchResult` (main.py:104). -/
structure SearchResult where
  query : String
  products : List Product
  timestamp : String := ""
  search_time : ℚ := 0
deriving DecidableEq, Repr

/-- `SearchResult.total_products` (main.py:112). -/
def SearchResult.total_products (r : SearchResult) : ℕ :=
  r.products.length

/-- `SearchResult.platforms_searched` (main.py:116): `list(set(...))`; the set
iteration order is unspecified in Python, so the model fixes deduplication
order and every property proved about it is membership-level. -/
def SearchResult.platforms_searched (r : SearchResult) : List String :=
  (r.products.map Product.platform).dedup

/-- `SearchResult.best_deal` (main.py:120): `min(products, key=price)` — the
first product attaining the minimal price — or `None` when empty. -/
def SearchResult.best_deal (r : SearchResult) : Option Product :=
  match r.products with
  | [] => none
  | p :: ps => some (ps.foldl (fun best q => if q.price < best.price then q else best) p)

/-- `SearchResult.price_range` (main.py:126): `(min, max)` over the prices, or
`(0, 0)` when empty. -/
def SearchResult.price_range (r : SearchResult) : ℚ × ℚ :=
  match r.products.map Product.price with
  | [] => (0, 0)
  | x :: xs => (xs.foldl min x, xs.foldl max x)

namespace Config

/-- `Config.RESULTS_PER_SITE` (main.py:30). -/
def RESULTS_PER_SITE : ℕ := 15

/-- `Config.CACHE_TTL` (main.py:32), in seconds. -/
def CACHE_TTL : ℚ := 3600

end Config

/-- The cache key of `CacheManager` (main.py:193):
`f"{platform}:{query.lower().strip()}"`. The `md5` hexdigest applied to it in
`_get_cache_path` is modelled as the identity on keys. -/
def cacheKey (platform : String) (query : String) : String :=
  platform ++ ":" ++ String.mk (pyStrip (query.data.map asciiLower))

/-- The cache directory: one entry per `.pkl` file, holding the write
timestamp and the pickled product list. -/
structure CacheState where
  entries : List (String × ℚ × List Product)
deriving DecidableEq, Repr

/-- The entry stored under a key, if any. -/
def CacheState.lookup (st : CacheState) (key : String) : Option (ℚ × List Product) :=
  (st.entries.find? (fun e => e.1 == key)).map (fun e => e.2)

/-- `Path.unlink` of the file under a key. -/
def CacheState.erase (st : CacheState) (key : String) : CacheState :=
  ⟨st.entries.filter (fun e => e.1 != key)⟩

/-- `CacheManager.get` (main.py:192): a fresh entry yields its payload; a
stale one (age not under the TTL) is deleted and yields a miss; an absent or
undecodable one yields a miss. Returns the result with the resulting store. -/
def CacheManager.get (ttl : ℚ) (st : CacheState) (platform query : String)
    (now : ℚ) : Option (List Product) × CacheState :=
  let key := cacheKey platform query
  match st.lookup key with
  | none => (none, st)
  | some (written, products) =>
    if now - written < ttl then (some products, st)
    else (none, st.erase key)

/-- `CacheManager.set` (main.py:208): write payload plus current timestamp
under the key, overwriting any prior value (the write is modelled as
succeeding; a failing write is swallowed by the source anyway). -/
def CacheManager.set (st : CacheState) (platform query : String)
    (products : List Product) (now : ℚ) : CacheState :=
  ⟨(cacheKey platform query, now, products) ::
    (st.erase (cacheKey platform query)).entries⟩

/-- `CacheManager.clear` (main.py:217): unlink every `.pkl` file, returning
how many were removed. -/
def CacheManager.clear (st : CacheState) : ℕ × CacheState :=
  (st.entries.length, ⟨[]⟩)

/-- `CacheManager.get_stats` (main.py:227): `(entries, size_bytes)`; file byte
sizes are abstracted as payload lengths (no claim touches the byte count). -/
def CacheManager.get_stats (st : CacheState) : ℕ × ℕ :=
  (st.entries.length, (st.entries.map (fun e => e.2.2.length)).sum)

/-- One record of the search-history log (main.py:251). -/
structure HistoryEntry where
  query : String
  timestamp : String
  total_products : ℕ
  platforms : List String
  best_price : Option ℚ
  best_platform : Option String
  search_time : ℚ
deriving DecidableEq, Repr

/-- `SearchHistory.add` (main.py:250): build the summary record, append it,
and write the file. `_save` (main.py:246) opens the history file with no
exception guard, so a failing write propagates to the caller; `writeOk`
models whether the ambient filesystem accepts that write. -/
def SearchHistory.add (writeOk : Bool) (history : List HistoryEntry)
    (result : SearchResult) : Except Unit (List HistoryEntry) :=
  let entry : HistoryEntry :=
    { query := result.query
      timestamp := result.timestamp
      total_products := result.total_products
      platforms := result.platforms_searched
      best_price := result.best_deal.map Product.price
      best_platform := result.best_deal.map Product.platform
      search_time := result.search_time }
  if writeOk then .ok (history ++ [entry]) else .error ()

/-- Python `float()` on a decimal string: strip, optional sign, digits with an
optional fractional part (at least one digit overall). Exponent and
`inf`/`nan` forms are outside the model and yield `none`, as a `ValueError`
does in the modelled code paths. -/
def pyFloat (s : List Char) : Option ℚ :=
  let t := pyStrip s
  let su : ℚ × List Char :=
    match t with
    | '-' :: r => (-1, r)
    | '+' :: r => (1, r)
    | _ => (1, t)
  let ip := su.2.takeWhile Char.isDigit
  match su.2.drop ip.length with
  | [] => if ip = [] then none else some (su.1 * (digitsToNat ip : ℚ))
  | '.' :: fs =>
    if fs.all Char.isDigit ∧ (ip ≠ [] ∨ fs ≠ []) then
      some (su.1 * ((digitsToNat ip : ℚ) + (digitsToNat fs : ℚ) / ((10 : ℚ) ^ fs.length)))
    else none
  | _ => none

/-- `re.search(r'(\d+)', s)`: the leftmost digit run, or `none`. -/
def findIntRun : List Char → Option (List Char)
  | [] => none
  | c :: cs =>
    if c.isDigit then some ((c :: cs).takeWhile Char.isDigit) else findIntRun cs

/-- A Daraz catalog item as read by the adapter: the JSON fields consulted by
the price/name gates and the discount data. A string field is the `str()`
image of the raw JSON value; an absent or JSON-falsy field is `none`. Fields
that can never cause an item to be dropped and that no claim touches (the url
candidates fed to `_build_product_url`, image, seller, shipping icons,
rating, review count) are omitted; the corresponding `Product` fields keep
their defaults. -/
structure DarazItem where
  price : Option (List Char)
  name : List Char
  originalPrice : Option (List Char) := none
  discount : Option (List Char) := none
deriving DecidableEq, Repr

/-- One iteration of the item loop of `DarazScraper._search_api`
(main.py:431): `float` of the de-comma'd price string, gated by
`if not price or price <= 0` (missing, unparsable, zero or negative prices
all drop the item), then the cleaned-name gate, then the `Product` build with
the variant's default currency. -/
def darazApiParseItem (platform currency : String) (item : DarazItem) :
    Option Product :=
  match item.price with
  | none => none
  | some rawPrice =>
    match pyFloat (removeAll [','] rawPrice) with
    | none => none
    | some price =>
      if price ≤ 0 then none
      else
        let name := clean_text item.name
        if name = [] then none
        else
          some { platform := platform, name := name.take 150, price := price,
                 currency := currency,
                 original_price :=
                   item.originalPrice.bind (fun s => pyFloat (removeAll [','] s)),
                 discount_percent :=
                   item.discount.bind
                     (fun s => (findIntRun s).map (fun ds => (digitsToNat ds : ℚ))) }

/-- One iteration of the embedded-JSON item loop of `DarazScraper._search_html`
(main.py:567): `float(item.get('price', 0))` gated only by Python truthiness
(`if not price`), so exactly the missing, unparsable and zero prices drop the
item — a parsed negative price passes this gate. URL and image extraction
never drop an item and are omitted (fields keep defaults). -/
def darazHtmlJsonParseItem (platform currency : String) (item : DarazItem) :
    Option Product :=
  let price? : Option ℚ :=
    match item.price with
    | none => some 0
    | some s => pyFloat s
  match price? with
  | none => none
  | some price =>
    if price = 0 then none
    else
      let name := clean_text item.name
      if name = [] then none
      else some { platform := platform, name := name.take 150, price := price,
                  currency := currency }

/-- An HTML product card as consulted by a selector fallback chain: the raw
text delivered by the first matching name locator and the first matching
price locator (or `none` when no locator matched), plus link and image data,
which never drop a card. -/
structure HtmlCard where
  nameText : Option (List Char)
  priceText : Option (List Char)
  href : Option (List Char) := none
  imgSrc : Option (List Char) := none
deriving DecidableEq, Repr

/-- The href fixups of the Daraz HTML card loop (main.py:651). -/
def darazFixHref (base : List Char) (href : List Char) : List Char :=
  if ("//".data).isPrefixOf href then "https:".data ++ href
  else if ("/".data).isPrefixOf href then base ++ href
  else if ("http".data).isPrefixOf href then href
  else base ++ '/' :: href

/-- One iteration of the selector-fallback card loop of
`DarazScraper._search_html` (main.py:614): cleaned-name gate, then
`extract_price` gated by truthiness (`if not price`), then the `Product`
build. -/
def darazHtmlCardParse (platform currency : String) (base : List Char)
    (card : HtmlCard) : Option Product :=
  match card.nameText with
  | none => none
  | some nt =>
    let name := clean_text nt
    if name = [] then none
    else
      match card.priceText with
      | none => none
      | some pt =>
        match (extract_price pt currency).1 with
        | none => none
        | some price =>
          if price = 0 then none
          else
            some { platform := platform, name := name.take 150, price := price,
                   currency := currency,
                   url :=
                     match card.href with
                     | some href => if href ≠ [] then darazFixHref base href else []
                     | none => [],
                   image_url :=
                     match card.imgSrc with
                     | some src =>
                       if src ≠ [] ∧ ("//".data).isPrefixOf src then
                         "https:".data ++ src
                       else src
                     | none => [] }

/-- The portions of a fetched Daraz search page consulted by `_search_html`:
for each script tag whose embedded `window.pageData` JSON parsed to a
non-empty `listItems`, that item list; and the cards of the first matching
card selector. -/
structure DarazHtmlPage where
  scriptItemLists : List (List DarazItem) := []
  cards : List HtmlCard := []
deriving DecidableEq, Repr

/-- `DarazScraper._search_html` (main.py:540): every script tag with usable
embedded JSON contributes its parsed items; only when no script contributed
anything does the selector fallback run. `none` models a failed page fetch. -/
def darazSearchHtml (platform currency : String) (base : List Char)
    (page? : Option DarazHtmlPage) : List Product :=
  match page? with
  | none => []
  | some page =>
    let fromScripts :=
      page.scriptItemLists.flatMap
        (fun items => items.filterMap (darazHtmlJsonParseItem platform currency))
    if fromScripts ≠ [] then fromScripts
    else page.cards.filterMap (darazHtmlCardParse platform currency base)

/-- `DarazScraper._search_api` (main.py:400): `none` models a failed request,
non-200 status or JSON decode failure (each yields no products). -/
def darazSearchApi (platform currency : String)
    (items? : Option (List DarazItem)) : List Product :=
  match items? with
  | none => []
  | some items => items.filterMap (darazApiParseItem platform currency)

/-- `DarazScraper.search` (main.py:338): the API products, falling back to
HTML scraping when the API yields none, truncated to
`Config.RESULTS_PER_SITE`. -/
def darazSearch (currency : String) (base : List Char)
    (apiItems : Option (List DarazItem)) (page : Option DarazHtmlPage) :
    List Product :=
  let products := darazSearchApi "Daraz" currency apiItems
  let products :=
    if products = [] then darazSearchHtml "Daraz" currency base page
    else products
  products.take Config.RESULTS_PER_SITE

/-- The marker test of the AliExpress script loop (main.py:810). -/
def aliScriptMatches (t : List Char) : Bool :=
  containsSub "window._dida_config_".data t || containsSub "runParams".data t

/-- `re.findall(r'"productId":"(\d+)"', t)`: every captured digit run,
scanning left to right and continuing after each full match. -/
def findProductIds : List Char → List (List Char)
  | [] => []
  | c :: cs =>
    if ("\x22productId\x22:\x22".data).isPrefixOf (c :: cs) then
      let after := (c :: cs).drop 13
      let ds := after.takeWhile Char.isDigit
      if ds ≠ [] ∧ (after.drop ds.length).head? = some '"' then
        ds :: findProductIds (after.drop (ds.length + 1))
      else findProductIds cs
    else findProductIds cs
termination_by s => s.length
decreasing_by
  · simp only [List.length_drop, List.length_cons]; omega
  · simp only [List.length_cons]; omega
  · simp only [List.length_cons]; omega

/-- The portions of a fetched AliExpress page consulted by `search`
(main.py:795): the raw text of each script tag, and the cards of the first
matching selector group. -/
structure AliPage where
  scripts : List (List Char) := []
  cards : List HtmlCard := []
deriving DecidableEq, Repr

/-- One script tag's contribution (main.py:808): when the marker matches, up
to `RESULTS_PER_SITE` placeholder products built from the product ids found
in the script text (price is the hard-coded `0.01` placeholder). -/
def aliScriptProducts (script : List Char) : List Product :=
  if aliScriptMatches script then
    ((findProductIds script).take Config.RESULTS_PER_SITE).map (fun pid =>
      { platform := "AliExpress",
        name := "AliExpress Product ".data ++ pid,
        price := 1 / 100,
        currency := "USD",
        url := "https://www.aliexpress.com/item/".data ++ pid ++ ".html".data })
  else []

/-- `urllib.parse.urljoin` restricted to the href shapes arising here (an
absolute storefront base and a path-like href); no claim depends on the
contents of a joined URL. -/
def urljoinModel (base href : List Char) : List Char :=
  if href = [] then base
  else if ("http".data).isPrefixOf href then href
  else if ("/".data).isPrefixOf href then base ++ href
  else base ++ '/' :: href

/-- One iteration of the AliExpress selector-fallback loop (main.py:826); note
that the cleaned name is not gated for emptiness here, unlike the other
adapters. -/
def aliCardParse (card : HtmlCard) : Option Product :=
  match card.nameText with
  | none => none
  | some nt =>
    let name := clean_text nt
    match card.priceText with
    | none => none
    | some pt =>
      match (extract_price pt "USD").1 with
      | none => none
      | some price =>
        if price = 0 then none
        else
          some { platform := "AliExpress", name := name.take 150, price := price,
                 currency := "USD",
                 url :=
                   match card.href with
                   | some href =>
                     if ("//".data).isPrefixOf href then "https:".data ++ href
                     else if ¬ ("http".data).isPrefixOf href then
                       urljoinModel "https://www.aliexpress.com".data href
                     else href
                   | none => [],
                 image_url :=
                   match card.imgSrc with
                   | some src =>
                     if src ≠ [] ∧ ("//".data).isPrefixOf src then
                       "https:".data ++ src
                     else src
                   | none => [] }

/-- `AliExpressScraper.search` (main.py:795): every script tag matching the
marker contributes up to 15 placeholder products; only when no script
contributed is the selector fallback used, itself iterating over at most 15
cards — and the concatenation over the scripts is returned with no final
truncation. `none` models a failed page fetch. -/
def aliSearch (page? : Option AliPage) : List Product :=
  match page? with
  | none => []
  | some page =>
    let fromScripts := page.scripts.flatMap aliScriptProducts
    if fromScripts = [] then
      (page.cards.take Config.RESULTS_PER_SITE).filterMap aliCardParse
    else fromScripts

/-- A registered adapter as the orchestrator sees it: its platform name and
its `search` capability. `run` returning `.error` models an exception
escaping the adapter into `search_platform`. -/
structure Scraper where
  name : String
  run : String → Except Unit (List Product)

/-- The value of one `search_platform` unit (main.py:1197), extended with the
resulting cache state and a trace of whether the adapter was invoked. -/
structure UnitOutcome where
  platform : String
  products : List Product
  fromCache : Bool
  invoked : Bool
  cache : CacheState

/-- The `try` block of `search_platform` (main.py:1203): invoke the adapter;
write a non-empty result back to the cache only when `use_cache` is set; turn
an escaping exception into an empty contribution. -/
def runScraperUnit (cache : CacheState) (now : ℚ) (query : String)
    (use_cache : Bool) (scraper : Scraper) : UnitOutcome :=
  match scraper.run query with
  | .ok products =>
    { platform := scraper.name, products := products, fromCache := false,
      invoked := true,
      cache :=
        if products ≠ [] ∧ use_cache then
          CacheManager.set cache scraper.name query products now
        else cache }
  | .error _ =>
    { platform := scraper.name, products := [], fromCache := false,
      invoked := true, cache := cache }

/-- `search_platform` (main.py:1197): when `use_cache` is set, consult the
cache first and use a hit — `if cached:`, i.e. a non-`None` and non-empty
payload — without invoking the adapter; otherwise run the adapter unit. -/
def search_platform (ttl : ℚ) (cache : CacheState) (now : ℚ) (query : String)
    (use_cache : Bool) (scraper : Scraper) : UnitOutcome :=
  if use_cache then
    match CacheManager.get ttl cache scraper.name query now with
    | (some cached, cache₁) =>
      if cached ≠ [] then
        { platform := scraper.name, products := cached, fromCache := true,
          invoked := false, cache := cache₁ }
      else runScraperUnit cache₁ now query use_cache scraper
    | (none, cache₁) => runScraperUnit cache₁ now query use_cache scraper
  else runScraperUnit cache now query use_cache scraper

/-- The fan-out/join gather of `T2Scrap.search` (main.py:1212): one unit per
registered scraper, every unit awaited. The model threads the cache state
through the units in registration order; the properties proved below are
insensitive to the completion order of the concurrent units. -/
def runUnits (ttl : ℚ) (cache : CacheState) (now : ℚ) (query : String)
    (use_cache : Bool) : List Scraper → List UnitOutcome × CacheState
  | [] => ([], cache)
  | s :: rest =>
    let u := search_platform ttl cache now query use_cache s
    let further := runUnits ttl u.cache now query use_cache rest
    (u :: further.1, further.2)

/-- The ambient state and environment of one `T2Scrap.search` call: the
registered scrapers, the cache store, the history log, the clock values
observed during the call, and whether the history-file write will succeed. -/
structure Env where
  scrapers : List Scraper
  cache : CacheState := ⟨[]⟩
  history : List HistoryEntry := []
  now : ℚ := 0
  nowIso : String := ""
  elapsed : ℚ := 0
  historyWriteOk : Bool := true

/-- The key function of `self._current_results.sort(key=lambda p: p.price)`
(main.py:1232). -/
def priceLe (a b : Product) : Bool :=
  a.price ≤ b.price

/-- `T2Scrap.search` (main.py:1189): gather every unit's contribution, sort
the accumulator ascending by price (`list.sort` is stable, modelled by
`List.mergeSort`), wrap it into a `SearchResult`, and append that to the
history — whose file write (`SearchHistory._save`, main.py:246) is the one
step of the call with no exception guard, so its failure propagates. -/
def T2Scrap.search (env : Env) (query : String) (use_cache : Bool) :
    Except Unit (SearchResult × CacheState × List HistoryEntry) :=
  let gathered :=
    runUnits Config.CACHE_TTL env.cache env.now query use_cache env.scrapers
  let sorted := ((gathered.1.map UnitOutcome.products).flatten).mergeSort priceLe
  let result : SearchResult :=
    { query := query, products := sorted, timestamp := env.nowIso,
      search_time := env.elapsed }
  match SearchHistory.add env.historyWriteOk env.history result with
  | .ok h => .ok (result, gathered.2, h)
  | .error e => .error e

/-- Sample cheap product used by concrete witness instantiations. -/
def prodCheap : Product :=
  { platform := "A", name := ['a'], price := 3, currency := "USD" }

/-- Sample expensive product used by concrete witness instantiations. -/
def prodDear : Product :=
  { platform := "A", name := ['b'], price := 9, currency := "USD" }

/-- Sample Daraz API item with a well-formed positive price. -/
def itemNine : DarazItem := { price := some ['9'], name := ['x'] }

/-- The product `darazApiParseItem` builds from `itemNine`. -/
def prodNine : Product :=
  { platform := "Daraz", name := ['x'], price := 9, currency := "NPR" }

/-- Test-harness construction for the cache claims: insert each
(platform, query, payload) triple in order, all at time `t`, into an empty
cache. -/
def insertAll (kvs : List (String × String × List Product)) (t : ℚ) : CacheState :=
  kvs.foldl (fun st kv => CacheManager.set st kv.1 kv.2.1 kv.2.2 t) ⟨[]⟩

/-- An upper-case ASCII character never survives `asciiLower` (bounds form). -/
theorem char_isUpper_toNat {c : Char} (h : c.isUpper = true) :
    65 ≤ c.toNat ∧ c.toNat ≤ 90 := by
  unfold Char.isUpper at h
  simp only [Bool.and_eq_true, decide_eq_true_eq, UInt32.le_def, BitVec.le_def] at h
  unfold Char.toNat UInt32.toNat
  exact h

/-- The image of `asciiLower` holds no upper-case ASCII letter. -/
theorem asciiLower_isUpper (c : Char) : (asciiLower c).isUpper = false := by
  unfold asciiLower
  split
  · rename_i h
    obtain ⟨h1, h2⟩ := char_isUpper_toNat h
    interval_cases hn : c.toNat <;> decide
  · rename_i h
    exact Bool.eq_false_iff.mpr h

/-- An alphabetic character in the image of `asciiLower` is lower-case. -/
theorem asciiLower_alpha_isLower (c : Char) (ha : (asciiLower c).isAlpha = true) :
    (asciiLower c).isLower = true := by
  have h := asciiLower_isUpper c
  unfold Char.isAlpha at ha
  rcases (Bool.or_eq_true ..).mp ha with h1 | h1
  · rw [h] at h1; cases h1
  · exact h1

/-- The value parsed from a matched `\d+(?:\.\d{1,2})?` token is non-negative. -/
theorem decToRat_nonneg (tok : List Char) : 0 ≤ decToRat tok := by
  unfold decToRat
  dsimp only
  split
  · positivity
  · exact Nat.cast_nonneg _

/-- A price extracted by `extract_price` is never negative (the numeric
pattern carries no sign). -/
theorem extract_price_nonneg (text : List Char) (dc : String) (v : ℚ)
    (h : (extract_price text dc).1 = some v) : 0 ≤ v := by
  simp only [extract_price] at h
  split at h
  · simp at h
  · split at h <;>
    · simp only at h
      obtain ⟨tok, -, rfl⟩ := Option.map_eq_some'.mp h
      exact decToRat_nonneg tok

/-- `min(products, key=price)` keeps its start value when that value is
already minimal. -/
theorem foldl_minBy_eq_head (ps : List Product) (p : Product)
    (hp : ∀ q ∈ ps, p.price ≤ q.price) :
    ps.foldl (fun best q => if q.price < best.price then q else best) p = p := by
  induction ps with
  | nil => rfl
  | cons q qs ih =>
    have h1 : p.price ≤ q.price := hp q (.head _)
    simp only [List.foldl_cons, if_neg (not_lt.mpr h1)]
    exact ih (fun r hr => hp r (.tail _ hr))

/-- In a price-sorted list, the head's price bounds every later price. -/
theorem chain'_price_le_head (p : Product) (ps : List Product)
    (h : List.Chain' (fun a b => a.price ≤ b.price) (p :: ps)) :
    ∀ q ∈ ps, p.price ≤ q.price := by
  induction ps generalizing p with
  | nil => intro q hq; cases hq
  | cons q qs ih =>
    intro r hr
    have h1 : p.price ≤ q.price := (List.chain'_cons.mp h).1
    cases hr with
    | head => exact h1
    | tail _ hr' => exact le_trans h1 (ih q (List.chain'_cons.mp h).2 r hr')

/-- C4: `extract_price("$1,299.00", "USD")` yields `(1299, "USD")`;
`extract_price("Rs. 4,500", "NPR")` yields `(4500, "INR")`, the `Rs` symbol
table entry taking priority over the caller's default; `extract_price("",
"USD")` yields `(absent, "USD")`. -/
theorem C4_extract_price_examples :
    extract_price "$1,299.00".data "USD" = (some 1299, "USD") ∧
    extract_price "Rs. 4,500".data "NPR" = (some 4500, "INR") ∧
    extract_price [] "USD" = (none, "USD") := by
  refine ⟨?_, ?_, ?_⟩ <;>
    simp [extract_price, pyStrip, currency_map, containsSub, removeAll,
      stripCurrencyCodes, findDecimal, grabDecimal, decToRat, digitsToNat,
      matchesCI, currencyCodes, asciiLower, pyIsSpace]

/-- C3: for a price-sorted products list, `best_deal` is the head product
(so it is present and equals `products[0]` whenever the list is non-empty);
for an empty products list, `best_deal` is absent and `price_range` is
`(0, 0)`. -/
theorem C3_best_deal_and_range (r : SearchResult) :
    (List.Chain' (fun a b => a.price ≤ b.price) r.products →
      r.best_deal = r.products.head?) ∧
    (r.products = [] → r.best_deal = none ∧ r.price_range = (0, 0)) := by
  constructor
  · intro hs
    cases hpr : r.products with
    | nil => simp [SearchResult.best_deal, hpr]
    | cons p ps =>
      rw [hpr] at hs
      simp only [SearchResult.best_deal, hpr, List.head?_cons]
      exact congrArg some (foldl_minBy_eq_head ps p (chain'_price_le_head p ps hs))
  · intro he
    simp [SearchResult.best_deal, SearchResult.price_range, he]

/-- Witness for C3 at concrete search results: a sorted two-product list and
the empty list. -/
theorem C3_witness :
    ({ query := "q", products := [prodCheap, prodDear] } : SearchResult).best_deal
      = some prodCheap ∧
    ({ query := "q", products := [] } : SearchResult).best_deal = none ∧
    ({ query := "q", products := [] } : SearchResult).price_range = (0, 0) :=
  ⟨(C3_best_deal_and_range _).1
      (by simp [List.chain'_cons, prodCheap, prodDear]; norm_num),
   ((C3_best_deal_and_range _).2 rfl).1,
   ((C3_best_deal_and_range _).2 rfl).2⟩

/-- C1 counterexample: in the embedded-JSON fallback of
`DarazScraper._search_html`, the item `{price: "-5", name: "x"}` is not
dropped — a `Product` with price `-5 < 0` is constructed, because the gate
`if not price` rejects only zero. -/
theorem C1_counterexample :
    (darazHtmlJsonParseItem "Daraz" "NPR"
        { price := some ['-', '5'], name := ['x'] }).map Product.price
      = some (-5) := by
  simp [darazHtmlJsonParseItem, pyFloat, pyStrip, pyIsSpace, digitsToNat,
    clean_text, pyWords, List.intercalate, List.takeWhile, List.dropWhile]

/-- C1 (amended): the Daraz price gates, per extraction path. In
`_search_api`, a missing, unparsable, zero or negative price drops the item,
so every parsed product has positive price; the selector fallback of
`_search_html` likewise yields only positive prices (the `extract_price`
value is non-negative and zero fails the truthiness gate); the embedded-JSON
fallback of `_search_html` drops only missing, unparsable and zero prices,
so it guarantees a non-zero — not a positive — price. -/
theorem C1_daraz_price_gates :
    (∀ plat curr item p, darazApiParseItem plat curr item = some p → 0 < p.price) ∧
    (∀ plat curr base card p,
      darazHtmlCardParse plat curr base card = some p → 0 < p.price) ∧
    (∀ plat curr item p, darazHtmlJsonParseItem plat curr item = some p → p.price ≠ 0) := by
  refine ⟨?_, ?_, ?_⟩
  · intro plat curr item p h
    simp only [darazApiParseItem] at h
    cases hp : item.price with
    | none => rw [hp] at h; cases h
    | some rawPrice =>
      rw [hp] at h
      dsimp only at h
      cases hf : pyFloat (removeAll [','] rawPrice) with
      | none => rw [hf] at h; cases h
      | some price =>
        rw [hf] at h
        dsimp only at h
        by_cases hpos : price ≤ 0
        · rw [if_pos hpos] at h; cases h
        · rw [if_neg hpos] at h
          by_cases hname : clean_text item.name = []
          · rw [if_pos hname] at h; cases h
          · rw [if_neg hname] at h
            injection h with h2
            subst h2
            exact lt_of_not_le hpos
  · intro plat curr base card p h
    simp only [darazHtmlCardParse] at h
    cases hnt : card.nameText with
    | none => rw [hnt] at h; cases h
    | some nt =>
      rw [hnt] at h
      dsimp only at h
      by_cases hname : clean_text nt = []
      · rw [if_pos hname] at h; cases h
      · rw [if_neg hname] at h
        cases hpt : card.priceText with
        | none => rw [hpt] at h; cases h
        | some pt =>
          rw [hpt] at h
          dsimp only at h
          cases hext : (extract_price pt curr).1 with
          | none => rw [hext] at h; cases h
          | some price =>
            rw [hext] at h
            dsimp only at h
            by_cases hz : price = 0
            · rw [if_pos hz] at h; cases h
            · rw [if_neg hz] at h
              injection h with h2
              subst h2
              exact lt_of_le_of_ne (extract_price_nonneg pt curr price hext)
                (Ne.symm hz)
  · intro plat curr item p h
    simp only [darazHtmlJsonParseItem] at h
    cases hq :
        (match item.price with
          | none => some (0 : ℚ)
          | some s => pyFloat s) with
    | none => rw [hq] at h; cases h
    | some price =>
      rw [hq] at h
      dsimp only at h
      by_cases hz : price = 0
      · rw [if_pos hz] at h; cases h
      · rw [if_neg hz] at h
        by_cases hname : clean_text item.name = []
        · rw [if_pos hname] at h; cases h
        · rw [if_neg hname] at h
          injection h with h2
          subst h2
          exact hz

/-- Witness for C1 (amended) at a concrete API item with price "9". -/
theorem C1_witness : 0 < prodNine.price :=
  C1_daraz_price_gates.1 "Daraz" "NPR" itemNine prodNine (by
    simp [darazApiParseItem, itemNine, prodNine, pyFloat, removeAll, pyStrip,
      pyIsSpace, digitsToNat, clean_text, pyWords, List.intercalate])

/-- A cache lookup misses exactly when no entry carries the key. -/
theorem CacheState.lookup_none_iff (st : CacheState) (k : String) :
    st.lookup k = none ↔ ∀ e ∈ st.entries, e.1 ≠ k := by
  unfold CacheState.lookup
  rw [Option.map_eq_none', List.find?_eq_none]
  simp

/-- Reading back the key just written yields the timestamped payload. -/
theorem lookup_set_self (st : CacheState) (pl q : String) (P : List Product) (t : ℚ) :
    (CacheManager.set st pl q P t).lookup (cacheKey pl q) = some (t, P) := by
  simp [CacheManager.set, CacheState.lookup, List.find?]

/-- An erased key no longer resolves. -/
theorem lookup_erase_self (st : CacheState) (k : String) :
    (st.erase k).lookup k = none := by
  rw [CacheState.lookup_none_iff]
  intro e he
  simpa using (List.mem_filter.mp he).2

/-- Writing under a fresh key grows the store by exactly one entry. -/
theorem length_set_of_fresh (st : CacheState) (pl q : String) (P : List Product)
    (t : ℚ) (h : st.lookup (cacheKey pl q) = none) :
    (CacheManager.set st pl q P t).entries.length = st.entries.length + 1 := by
  have hall := (CacheState.lookup_none_iff ..).mp h
  have hfilter : st.entries.filter (fun e => e.1 != cacheKey pl q) = st.entries :=
    List.filter_eq_self.mpr (fun e he => bne_iff_ne.mpr (hall e he))
  simp [CacheManager.set, CacheState.erase, hfilter]

/-- Writing one key cannot make an unrelated missing key appear. -/
theorem lookup_set_of_ne_none (st : CacheState) (pl q : String) (P : List Product)
    (t : ℚ) (k : String) (hk : k ≠ cacheKey pl q) (h : st.lookup k = none) :
    (CacheManager.set st pl q P t).lookup k = none := by
  rw [CacheState.lookup_none_iff]
  intro e he
  rcases List.mem_cons.mp he with rfl | he'
  · exact Ne.symm hk
  · exact (CacheState.lookup_none_iff ..).mp h e (List.mem_of_mem_filter he')

/-- C6: a `set` followed by a `get` within the TTL returns the stored payload;
a `get` finding an entry of age at least the TTL deletes that entry and
misses, so the entry is gone from the resulting store. -/
theorem C6_cache_roundtrip :
    (∀ (st : CacheState) (pl q : String) (P : List Product) (t tg ttl : ℚ),
      tg - t < ttl →
      (CacheManager.get ttl (CacheManager.set st pl q P t) pl q tg).1 = some P) ∧
    (∀ (st : CacheState) (pl q : String) (P : List Product) (w tg ttl : ℚ),
      st.lookup (cacheKey pl q) = some (w, P) →
      ttl ≤ tg - w →
      (CacheManager.get ttl st pl q tg).1 = none ∧
      (CacheManager.get ttl st pl q tg).2.lookup (cacheKey pl q) = none) := by
  constructor
  · intro st pl q P t tg ttl hf
    simp only [CacheManager.get, lookup_set_self]
    rw [if_pos hf]
  · intro st pl q P w tg ttl hl hs
    simp only [CacheManager.get, hl]
    rw [if_neg (not_lt.mpr hs)]
    exact ⟨rfl, lookup_erase_self ..⟩

/-- Witness for C6: a fresh read at age 100 and a stale read at age 3700
against the default one-hour TTL. -/
theorem C6_witness :
    (CacheManager.get 3600 (CacheManager.set ⟨[]⟩ "eBay" "laptop" [prodCheap] 100)
        "eBay" "laptop" 200).1 = some [prodCheap] ∧
    (CacheManager.get 3600 (CacheManager.set ⟨[]⟩ "eBay" "laptop" [prodCheap] 100)
        "eBay" "laptop" 3800).1 = none ∧
    (CacheManager.get 3600 (CacheManager.set ⟨[]⟩ "eBay" "laptop" [prodCheap] 100)
        "eBay" "laptop" 3800).2.lookup (cacheKey "eBay" "laptop") = none :=
  ⟨C6_cache_roundtrip.1 ⟨[]⟩ "eBay" "laptop" [prodCheap] 100 200 3600 (by norm_num),
   (C6_cache_roundtrip.2 _ "eBay" "laptop" [prodCheap] 100 3800 3600
      (lookup_set_self ⟨[]⟩ "eBay" "laptop" [prodCheap] 100) (by norm_num)).1,
   (C6_cache_roundtrip.2 _ "eBay" "laptop" [prodCheap] 100 3800 3600
      (lookup_set_self ⟨[]⟩ "eBay" "laptop" [prodCheap] 100) (by norm_num)).2⟩

/-- C7 counterexample: with `use_cache=false` and a non-empty adapter result,
the unit performs no write-back — the cache state is untouched — contradicting
the claim that write-back also happens when `useCache` is false
(`if products and use_cache` in main.py:1205 requires both). -/
theorem C7_counterexample :
    (search_platform 3600 ⟨[]⟩ 0 "q" false ⟨"A", fun _ => .ok [prodCheap]⟩).products
        = [prodCheap] ∧
    (search_platform 3600 ⟨[]⟩ 0 "q" false ⟨"A", fun _ => .ok [prodCheap]⟩).cache
        = ⟨[]⟩ :=
  ⟨rfl, rfl⟩

/-- C7 (amended): the per-source unit. With `use_cache` set, a fresh non-empty
cache hit is used and the adapter is not invoked; a miss (or empty hit)
invokes the adapter, and a non-empty successful result is then written back;
with `use_cache` unset the adapter is always invoked and the cache is left
completely untouched — there is no write-back in that case. -/
theorem C7_unit_behavior (ttl : ℚ) (cache : CacheState) (now : ℚ) (query : String)
    (s : Scraper) :
    (∀ l c₁, CacheManager.get ttl cache s.name query now = (some l, c₁) → l ≠ [] →
      (search_platform ttl cache now query true s).invoked = false ∧
      (search_platform ttl cache now query true s).products = l) ∧
    (∀ c₁, CacheManager.get ttl cache s.name query now = (none, c₁) →
      (search_platform ttl cache now query true s).invoked = true) ∧
    (∀ ps, s.run query = .ok ps → ps ≠ [] →
      (CacheManager.get ttl cache s.name query now).1.getD [] = [] →
      (search_platform ttl cache now query true s).cache.lookup
          (cacheKey s.name query) = some (now, ps)) ∧
    ((search_platform ttl cache now query false s).invoked = true ∧
     (search_platform ttl cache now query false s).cache = cache) := by
  refine ⟨?_, ?_, ?_, ?_⟩
  · intro l c₁ hget hl
    simp only [search_platform, hget]
    rw [if_pos hl]
    exact ⟨rfl, rfl⟩
  · intro c₁ hget
    simp only [search_platform, hget]
    cases hr : s.run query <;> simp [runScraperUnit, hr]
  · intro ps hrun hps hmiss
    rcases hget : CacheManager.get ttl cache s.name query now with ⟨o, c₁⟩
    simp only [search_platform, hget]
    cases o with
    | none =>
      simp only [runScraperUnit, hrun]
      have hcond : ps ≠ [] ∧ True := ⟨hps, trivial⟩
      rw [if_pos hcond]
      exact lookup_set_self ..
    | some l =>
      have hl : l = [] := by
        rw [hget] at hmiss
        simpa using hmiss
      subst hl
      dsimp only
      simp only [runScraperUnit, hrun]
      have hcond : ps ≠ [] ∧ True := ⟨hps, trivial⟩
      rw [if_pos hcond]
      exact lookup_set_self ..
  · constructor
    · simp only [search_platform]
      rw [if_neg (by simp)]
      cases hr : s.run query <;> simp [runScraperUnit, hr]
    · simp only [search_platform]
      rw [if_neg (by simp)]
      cases hr : s.run query with
      | ok ps =>
        simp only [runScraperUnit, hr]
        rw [if_neg (by simp)]
      | error e => simp [runScraperUnit, hr]

/-- Witness for C7 (amended): the write-back on a miss with `use_cache` set,
and the forced invocation with `use_cache` unset. -/
theorem C7_witness :
    (search_platform 3600 ⟨[]⟩ 0 "q" true ⟨"A", fun _ => .ok [prodCheap]⟩).cache.lookup
        (cacheKey "A" "q") = some (0, [prodCheap]) ∧
    (search_platform 3600 ⟨[]⟩ 0 "q" false ⟨"A", fun _ => .ok [prodCheap]⟩).invoked
        = true :=
  ⟨(C7_unit_behavior 3600 ⟨[]⟩ 0 "q" ⟨"A", fun _ => .ok [prodCheap]⟩).2.2.1
      [prodCheap] rfl (by simp) rfl,
   (C7_unit_behavior 3600 ⟨[]⟩ 0 "q" ⟨"A", fun _ => .ok [prodCheap]⟩).2.2.2.1⟩

/-- Inserting a batch of pairwise-fresh, pairwise-distinct keys grows the
store by the batch size. -/
theorem insertAll_loop_length :
    ∀ (kvs : List (String × String × List Product)) (st : CacheState) (t : ℚ),
    (kvs.map (fun kv => cacheKey kv.1 kv.2.1)).Nodup →
    (∀ kv ∈ kvs, st.lookup (cacheKey kv.1 kv.2.1) = none) →
    (kvs.foldl (fun st kv => CacheManager.set st kv.1 kv.2.1 kv.2.2 t) st).entries.length
      = st.entries.length + kvs.length
  | [], st, t, _, _ => by simp
  | kv :: kvs, st, t, hnd, hfresh => by
    rw [List.map_cons, List.nodup_cons] at hnd
    simp only [List.foldl_cons, List.length_cons]
    have hlen := length_set_of_fresh st kv.1 kv.2.1 kv.2.2 t (hfresh kv (.head _))
    have hfresh' : ∀ kv' ∈ kvs,
        (CacheManager.set st kv.1 kv.2.1 kv.2.2 t).lookup (cacheKey kv'.1 kv'.2.1)
          = none := by
      intro kv' hkv'
      refine lookup_set_of_ne_none st kv.1 kv.2.1 kv.2.2 t _ ?_
        (hfresh kv' (.tail _ hkv'))
      intro heq
      exact hnd.1 (heq ▸ List.mem_map_of_mem _ hkv')
    rw [insertAll_loop_length kvs _ t hnd.2 hfresh', hlen]
    omega

/-- C9: after inserting K entries under K pairwise-distinct cache keys into an
initially empty cache, `clear` removes them all and returns K, and `get_stats`
on the resulting store reports zero entries. -/
theorem C9_clear_stats (kvs : List (String × String × List Product)) (t : ℚ)
    (hnd : (kvs.map (fun kv => cacheKey kv.1 kv.2.1)).Nodup) :
    (CacheManager.clear (insertAll kvs t)).1 = kvs.length ∧
    (CacheManager.get_stats (CacheManager.clear (insertAll kvs t)).2).1 = 0 := by
  constructor
  · show (insertAll kvs t).entries.length = kvs.length
    unfold insertAll
    have h := insertAll_loop_length kvs ⟨[]⟩ t hnd (fun kv _ => rfl)
    simpa using h
  · rfl

/-- Witness for C9: two distinct entries, cleared. -/
theorem C9_witness :
    (CacheManager.clear
        (insertAll [("A", "q1", [prodCheap]), ("B", "q2", [])] 0)).1 = 2 ∧
    (CacheManager.get_stats
        (CacheManager.clear
          (insertAll [("A", "q1", [prodCheap]), ("B", "q2", [])] 0)).2).1 = 0 :=
  C9_clear_stats [("A", "q1", [prodCheap]), ("B", "q2", [])] 0 (by decide)

/-- The unit built by the adapter try-block carries the scraper's name. -/
theorem runScraperUnit_platform (cache : CacheState) (now : ℚ) (query : String)
    (uc : Bool) (s : Scraper) :
    (runScraperUnit cache now query uc s).platform = s.name := by
  unfold runScraperUnit
  split <;> rfl

/-- Every unit carries the name of the scraper it was dispatched for. -/
theorem search_platform_platform (ttl : ℚ) (cache : CacheState) (now : ℚ)
    (query : String) (uc : Bool) (s : Scraper) :
    (search_platform ttl cache now query uc s).platform = s.name := by
  unfold search_platform
  split
  · split
    · split
      · rfl
      · exact runScraperUnit_platform ..
    · exact runScraperUnit_platform ..
  · exact runScraperUnit_platform ..

/-- The gather runs one unit per registered scraper, in order. -/
theorem runUnits_platforms (ttl : ℚ) (now : ℚ) (query : String) (uc : Bool) :
    ∀ (scrapers : List Scraper) (cache : CacheState),
    (runUnits ttl cache now query uc scrapers).1.map UnitOutcome.platform
      = scrapers.map Scraper.name
  | [], _ => rfl
  | s :: rest, cache => by
    simp only [runUnits, List.map_cons]
    rw [search_platform_platform, runUnits_platforms ttl now query uc rest]

/-- A successful `T2Scrap.search` returns exactly the price-sorted
concatenation of the units' contributions. -/
theorem search_ok_products (env : Env) (query : String) (uc : Bool)
    (r : SearchResult) (cs : CacheState) (hs : List HistoryEntry)
    (h : T2Scrap.search env query uc = .ok (r, cs, hs)) :
    r.products = ((runUnits Config.CACHE_TTL env.cache env.now query uc
        env.scrapers).1.map UnitOutcome.products).flatten.mergeSort priceLe := by
  simp only [T2Scrap.search, SearchHistory.add] at h
  split at h
  · injection h with h2
    obtain ⟨h3, -⟩ := (Prod.mk.injEq ..).mp h2
    subst h3
    rfl
  · cases h

/-- The sort key comparison is transitive. -/
theorem priceLe_trans (a b c : Product) (hab : priceLe a b = true)
    (hbc : priceLe b c = true) : priceLe a c = true := by
  simp only [priceLe, decide_eq_true_eq] at *
  exact le_trans hab hbc

/-- The sort key comparison is total. -/
theorem priceLe_total (a b : Product) : (priceLe a b || priceLe b a) = true := by
  simp only [priceLe, Bool.or_eq_true, decide_eq_true_eq]
  exact le_total a.price b.price

/-- C2: for every environment, query and cache flag, the products list of a
SearchResult returned by `T2Scrap.search` is sorted ascending by price:
adjacent pairs satisfy `products[i].price <= products[i+1].price`. -/
theorem C2_products_sorted (env : Env) (query : String) (use_cache : Bool)
    (r : SearchResult) (cs : CacheState) (hs : List HistoryEntry)
    (h : T2Scrap.search env query use_cache = .ok (r, cs, hs)) :
    List.Chain' (fun a b => a.price ≤ b.price) r.products := by
  rw [search_ok_products env query use_cache r cs hs h]
  have hp := List.sorted_mergeSort priceLe_trans priceLe_total
    ((runUnits Config.CACHE_TTL env.cache env.now query use_cache
        env.scrapers).1.map UnitOutcome.products).flatten
  exact (hp.imp (fun hab => by simpa [priceLe] using hab)).chain'

/-- Witness for C2: two out-of-order products from one adapter come back
sorted. -/
theorem C2_witness :
    List.Chain' (fun a b => a.price ≤ b.price)
      ({ query := "q", products := [prodCheap, prodDear], timestamp := "",
         search_time := 0 } : SearchResult).products :=
  C2_products_sorted { scrapers := [⟨"A", fun _ => .ok [prodDear, prodCheap]⟩] }
    "q" false _ ⟨[]⟩
    [{ query := "q", timestamp := "", total_products := 2, platforms := ["A"],
       best_price := some 3, best_platform := some "A", search_time := 0 }]
    (by
      simp [T2Scrap.search, runUnits, search_platform, runScraperUnit,
        SearchHistory.add, SearchResult.total_products,
        SearchResult.platforms_searched, SearchResult.best_deal,
        List.mergeSort, List.merge, priceLe, prodCheap, prodDear,
        Config.CACHE_TTL, List.dedup]
      norm_num [List.pwFilter, List.foldl])

/-- C5 counterexample: the claim says `T2Scrap.search` never raises, but the
history append (`SearchHistory._save`) has no exception guard — when the
history-file write fails, the exception escapes `search` and no SearchResult
is returned. -/
theorem C5_counterexample :
    T2Scrap.search
        { scrapers := [⟨"A", fun _ => .ok [prodCheap]⟩], historyWriteOk := false }
        "q" true = .error () := by
  simp [T2Scrap.search, runUnits, search_platform, runScraperUnit,
    CacheManager.get, CacheState.lookup, SearchHistory.add, List.mergeSort,
    List.merge, Config.CACHE_TTL, List.find?]

/-- C5 (amended): adapter failures never escape — every failed unit
contributes an empty list — and, provided the history-file write succeeds,
`search` returns a SearchResult whose `platforms_searched` holds exactly the
names of the units that contributed at least one product and whose
`total_products` is the sum of the units' contribution counts. An exception
from the history write itself, however, does escape (see the
counterexample). -/
theorem C5_graceful (env : Env) (query : String) (use_cache : Bool)
    (hw : env.historyWriteOk = true)
    (hp : ∀ u ∈ (runUnits Config.CACHE_TTL env.cache env.now query use_cache
        env.scrapers).1, ∀ p ∈ u.products, p.platform = u.platform) :
    (∃ r cs hs, T2Scrap.search env query use_cache = .ok (r, cs, hs)) ∧
    ((runUnits Config.CACHE_TTL env.cache env.now query use_cache
        env.scrapers).1.map UnitOutcome.platform = env.scrapers.map Scraper.name) ∧
    (∀ r cs hs, T2Scrap.search env query use_cache = .ok (r, cs, hs) →
      r.total_products = ((runUnits Config.CACHE_TTL env.cache env.now query
          use_cache env.scrapers).1.map (fun u => u.products.length)).sum ∧
      (∀ name, name ∈ r.platforms_searched ↔
        ∃ u ∈ (runUnits Config.CACHE_TTL env.cache env.now query use_cache
            env.scrapers).1, u.platform = name ∧ u.products ≠ [])) := by
  refine ⟨?_, runUnits_platforms .., ?_⟩
  · cases hok : T2Scrap.search env query use_cache with
    | ok val => exact ⟨val.1, val.2.1, val.2.2, rfl⟩
    | error e =>
      exfalso
      simp [T2Scrap.search, SearchHistory.add, hw] at hok
  · intro r cs hs h
    have hprod := search_ok_products env query use_cache r cs hs h
    have hperm := List.mergeSort_perm
      ((runUnits Config.CACHE_TTL env.cache env.now query use_cache
        env.scrapers).1.map UnitOutcome.products).flatten priceLe
    constructor
    · simp only [SearchResult.total_products, hprod, hperm.length_eq,
        List.length_flatten, List.map_map]
      rfl
    · intro name
      constructor
      · intro hname
        simp only [SearchResult.platforms_searched, List.mem_dedup,
          List.mem_map, hprod] at hname
        obtain ⟨p, hpmem, rfl⟩ := hname
        have hpg := hperm.mem_iff.mp hpmem
        obtain ⟨l, hl, hpl⟩ := List.mem_flatten.mp hpg
        obtain ⟨u, hu, rfl⟩ := List.mem_map.mp hl
        exact ⟨u, hu, (hp u hu p hpl).symm, List.ne_nil_of_mem hpl⟩
      · rintro ⟨u, hu, hun, hne⟩
        obtain ⟨p, hpl⟩ := List.exists_mem_of_ne_nil u.products hne
        have hpg : p ∈ ((runUnits Config.CACHE_TTL env.cache env.now query
            use_cache env.scrapers).1.map UnitOutcome.products).flatten :=
          List.mem_flatten.mpr ⟨u.products, List.mem_map_of_mem _ hu, hpl⟩
        have hpr : p ∈ r.products := by
          rw [hprod]
          exact hperm.mem_iff.mpr hpg
        simp only [SearchResult.platforms_searched, List.mem_dedup, List.mem_map]
        exact ⟨p, hpr, (hp u hu p hpl).trans hun⟩

/-- Witness for C5 (amended): two adapters, one failing entirely, with the
history write succeeding. -/
theorem C5_witness :
    (∃ r cs hs, T2Scrap.search
        { scrapers := [⟨"A", fun _ => .ok [prodCheap]⟩, ⟨"B", fun _ => .error ()⟩] }
        "q" false = .ok (r, cs, hs)) ∧
    ((runUnits Config.CACHE_TTL (⟨[]⟩ : CacheState) 0 "q" false
        [⟨"A", fun _ => .ok [prodCheap]⟩, ⟨"B", fun _ => .error ()⟩]).1.map
        UnitOutcome.platform
      = ([⟨"A", fun _ => .ok [prodCheap]⟩, ⟨"B", fun _ => .error ()⟩] :
          List Scraper).map Scraper.name) ∧
    (∀ r cs hs, T2Scrap.search
        { scrapers := [⟨"A", fun _ => .ok [prodCheap]⟩, ⟨"B", fun _ => .error ()⟩] }
        "q" false = .ok (r, cs, hs) →
      r.total_products = ((runUnits Config.CACHE_TTL (⟨[]⟩ : CacheState) 0 "q" false
          [⟨"A", fun _ => .ok [prodCheap]⟩, ⟨"B", fun _ => .error ()⟩]).1.map
          (fun u => u.products.length)).sum ∧
      (∀ name, name ∈ r.platforms_searched ↔
        ∃ u ∈ (runUnits Config.CACHE_TTL (⟨[]⟩ : CacheState) 0 "q" false
            [⟨"A", fun _ => .ok [prodCheap]⟩, ⟨"B", fun _ => .error ()⟩]).1,
          u.platform = name ∧ u.products ≠ [])) :=
  C5_graceful
    { scrapers := [⟨"A", fun _ => .ok [prodCheap]⟩, ⟨"B", fun _ => .error ()⟩] }
    "q" false rfl (by decide)

/-- C8 counterexample: an AliExpress response document holding two script tags
that both match the marker, each carrying 8 product ids, yields 16 products —
`AliExpressScraper.search` applies no final cap to the concatenation over
scripts, so its output exceeds `Config.RESULTS_PER_SITE = 15`. -/
theorem C8_counterexample :
    Config.RESULTS_PER_SITE <
      (aliSearch (some { scripts :=
        [("runParams\"productId\":\"1\"\"productId\":\"2\"\"productId\":\"3\"\"productId\":\"4\"\"productId\":\"5\"\"productId\":\"6\"\"productId\":\"7\"\"productId\":\"8\"").data,
         ("runParams\"productId\":\"1\"\"productId\":\"2\"\"productId\":\"3\"\"productId\":\"4\"\"productId\":\"5\"\"productId\":\"6\"\"productId\":\"7\"\"productId\":\"8\"").data] })).length := by
  have h : (aliSearch (some { scripts :=
        [("runParams\"productId\":\"1\"\"productId\":\"2\"\"productId\":\"3\"\"productId\":\"4\"\"productId\":\"5\"\"productId\":\"6\"\"productId\":\"7\"\"productId\":\"8\"").data,
         ("runParams\"productId\":\"1\"\"productId\":\"2\"\"productId\":\"3\"\"productId\":\"4\"\"productId\":\"5\"\"productId\":\"6\"\"productId\":\"7\"\"productId\":\"8\"").data] })).length = 16 := by
    simp [aliSearch, aliScriptProducts, aliScriptMatches, containsSub,
      findProductIds, Config.RESULTS_PER_SITE]
  rw [h]
  decide

/-- One script tag contributes at most `RESULTS_PER_SITE` products. -/
theorem aliScriptProducts_length_le (script : List Char) :
    (aliScriptProducts script).length ≤ Config.RESULTS_PER_SITE := by
  unfold aliScriptProducts
  split
  · rw [List.length_map]
    exact List.length_take_le ..
  · simp

/-- C8 (amended): `DarazScraper.search` caps its output at
`RESULTS_PER_SITE = 15` (as do the other final-slice adapters), while
`AliExpressScraper.search` caps only each script tag's contribution and the
selector fallback at 15: its output is bounded by `15 * (number of script
tags)` in the script path and by 15 in the fallback path, but not by 15
overall. -/
theorem C8_result_caps :
    (∀ (currency : String) (base : List Char) (apiItems : Option (List DarazItem))
      (page : Option DarazHtmlPage),
      (darazSearch currency base apiItems page).length ≤ Config.RESULTS_PER_SITE) ∧
    (aliSearch none = []) ∧
    (∀ page : AliPage, (aliSearch (some page)).length ≤
      max (Config.RESULTS_PER_SITE * page.scripts.length) Config.RESULTS_PER_SITE) := by
  refine ⟨?_, rfl, ?_⟩
  · intro currency base apiItems page
    unfold darazSearch
    exact List.length_take_le ..
  · intro page
    unfold aliSearch
    dsimp only
    split
    · refine le_trans ?_ (le_max_right ..)
      exact le_trans (List.length_filterMap_le ..) (List.length_take_le ..)
    · refine le_trans ?_ (le_max_left ..)
      rw [List.length_flatMap]
      have hb : ∀ x ∈ page.scripts.map (List.length ∘ aliScriptProducts),
          x ≤ Config.RESULTS_PER_SITE := by
        intro x hx
        obtain ⟨sc, -, rfl⟩ := List.mem_map.mp hx
        exact aliScriptProducts_length_le sc
      have hs := List.sum_le_card_nsmul _ _ hb
      rw [List.length_map, smul_eq_mul] at hs
      exact le_trans hs (by rw [Nat.mul_comm])

/-- Every character emitted by the whitespace substitution is a hyphen or a
non-whitespace character of the input. -/
theorem mem_wsRunsToHyphen : ∀ (s : List Char), ∀ c ∈ wsRunsToHyphen s,
    c = '-' ∨ (c ∈ s ∧ pyIsSpace c = false)
  | [] => by simp [wsRunsToHyphen]
  | ch :: cs => by
    intro c hc
    simp only [wsRunsToHyphen] at hc
    split at hc
    · rcases List.mem_cons.mp hc with rfl | hc'
      · exact Or.inl rfl
      · rcases mem_wsRunsToHyphen (cs.dropWhile pyIsSpace) c hc' with h | ⟨hm, hsp⟩
        · exact Or.inl h
        · exact Or.inr ⟨List.mem_cons_of_mem ch
            (((List.dropWhile_suffix pyIsSpace).sublist).mem hm), hsp⟩
    · rename_i hch
      rcases List.mem_cons.mp hc with rfl | hc'
      · exact Or.inr ⟨List.mem_cons_self .., Bool.eq_false_iff.mpr hch⟩
      · rcases mem_wsRunsToHyphen cs c hc' with h | ⟨hm, hsp⟩
        · exact Or.inl h
        · exact Or.inr ⟨List.mem_cons_of_mem ch hm, hsp⟩
termination_by s => s.length
decreasing_by
  all_goals
    simp only [List.length_cons]
    first
    | exact Nat.lt_succ_of_le (List.dropWhile_suffix _).length_le
    | omega

/-- The hyphen-run collapse emits only characters of its input. -/
theorem mem_collapseHyphens : ∀ (s : List Char), ∀ c ∈ collapseHyphens s, c ∈ s
  | [] => by simp [collapseHyphens]
  | ch :: cs => by
    intro c hc
    simp only [collapseHyphens] at hc
    split at hc
    · rename_i hch
      rcases List.mem_cons.mp hc with rfl | hc'
      · exact hch ▸ List.mem_cons_self ..
      · exact List.mem_cons_of_mem ch
          (((List.dropWhile_suffix (fun d => d = '-')).sublist).mem
            (mem_collapseHyphens (cs.dropWhile (fun d => d = '-')) c hc'))
    · rcases List.mem_cons.mp hc with rfl | hc'
      · exact List.mem_cons_self ..
      · exact List.mem_cons_of_mem ch (mem_collapseHyphens cs c hc')
termination_by s => s.length
decreasing_by
  all_goals
    simp only [List.length_cons]
    first
    | exact Nat.lt_succ_of_le (List.dropWhile_suffix _).length_le
    | omega

/-- The hyphen-run collapse preserves the head character. -/
theorem head?_collapseHyphens (s : List Char) :
    (collapseHyphens s).head? = s.head? := by
  cases s with
  | nil => simp [collapseHyphens]
  | cons ch cs =>
    simp only [collapseHyphens]
    split
    · rename_i hch
      simp [hch]
    · simp

/-- After collapsing, no two adjacent characters are both hyphens. -/
theorem chain'_collapseHyphens : ∀ (s : List Char),
    List.Chain' (fun a b => ¬(a = '-' ∧ b = '-')) (collapseHyphens s)
  | [] => by simp [collapseHyphens]
  | ch :: cs => by
    simp only [collapseHyphens]
    split
    · rw [List.chain'_cons']
      refine ⟨?_, chain'_collapseHyphens (cs.dropWhile (fun d => d = '-'))⟩
      intro b hb
      rw [head?_collapseHyphens] at hb
      have hnb := List.head?_dropWhile_not (fun d => decide (d = '-')) cs
      rw [hb] at hnb
      simp only [decide_eq_false_iff_not] at hnb
      exact fun hand => hnb hand.2
    · rename_i hch
      rw [List.chain'_cons']
      refine ⟨?_, chain'_collapseHyphens cs⟩
      intro b _
      exact fun hand => hch hand.1
termination_by s => s.length
decreasing_by
  all_goals
    simp only [List.length_cons]
    first
    | exact Nat.lt_succ_of_le (List.dropWhile_suffix _).length_le
    | omega

/-- C10 counterexample: `max_length` is a Python `int`, and the negative
bound `-1` makes the slice keep a prefix that drops the trailing character:
`slugify("ab", -1)` is `"a"`, whose length 1 is not at most `-1`, so the
claimed length bound fails as stated over every `max_length`. -/
theorem C10_counterexample :
    slugify "ab".data (-1) = ['a'] ∧
    ¬(((slugify "ab".data (-1)).length : ℤ) ≤ -1) := by
  have h : slugify "ab".data (-1) = ['a'] := by
    simp [slugify, pySliceTo, stripHyphens, collapseHyphens, wsRunsToHyphen,
      isSlugKeep, asciiLower, pyIsSpace]
  refine ⟨h, ?_⟩
  rw [h]
  decide

/-- C10 (amended): for every input string and every integer `max_length`,
`slugify` returns a string holding only lower-case ASCII letters, digits and
hyphens, with no two adjacent hyphens and no boundary hyphen; the length
bound `length ≤ max_length` holds whenever `max_length` is non-negative —
for a negative bound Python's slice keeps a prefix that drops trailing
characters instead, and the bound is unsatisfiable (see the
counterexample). -/
theorem C10_slugify (text : List Char) (max_length : ℤ) :
    (0 ≤ max_length → ((slugify text max_length).length : ℤ) ≤ max_length) ∧
    (∀ c ∈ slugify text max_length,
      c.isLower = true ∨ c.isDigit = true ∨ c = '-') ∧
    List.Chain' (fun a b => ¬(a = '-' ∧ b = '-')) (slugify text max_length) ∧
    (slugify text max_length).head? ≠ some '-' ∧
    (slugify text max_length).getLast? ≠ some '-' := by
  have hdef : slugify text max_length =
      List.rdropWhile (fun c => c = '-')
        (List.dropWhile (fun c => c = '-')
          (pySliceTo max_length (collapseHyphens (wsRunsToHyphen
            ((text.map asciiLower).filter isSlugKeep))))) := rfl
  rw [hdef]
  set s3 := collapseHyphens (wsRunsToHyphen ((text.map asciiLower).filter isSlugKeep))
    with hs3
  set t := pySliceTo max_length s3 with ht
  set u := List.dropWhile (fun c => c = '-') t with hu
  set res := List.rdropWhile (fun c => c = '-') u with hres
  have hpre : res <+: u := List.rdropWhile_prefix ..
  have hsuf : u <:+ t := List.dropWhile_suffix ..
  have htpre : t <+: s3 := by
    rw [ht]
    unfold pySliceTo
    split <;> exact List.take_prefix ..
  refine ⟨?_, ?_, ?_, ?_, ?_⟩
  · intro hnn
    have h1 : t.length ≤ max_length.toNat := by
      rw [ht]
      unfold pySliceTo
      rw [if_pos hnn]
      exact List.length_take_le ..
    have h2 : res.length ≤ max_length.toNat :=
      le_trans (le_trans hpre.length_le hsuf.length_le) h1
    calc ((res.length : ℤ)) ≤ (max_length.toNat : ℤ) := by exact_mod_cast h2
      _ = max_length := Int.toNat_of_nonneg hnn
  · intro c hc
    have hct : c ∈ t := hsuf.sublist.mem (hpre.sublist.mem hc)
    have hcs3 : c ∈ s3 := htpre.sublist.mem hct
    have hcs2 := mem_collapseHyphens _ c hcs3
    rcases mem_wsRunsToHyphen _ c hcs2 with rfl | ⟨hcs1, hnsp⟩
    · exact Or.inr (Or.inr rfl)
    · obtain ⟨hcmap, hkeep⟩ := List.mem_filter.mp hcs1
      simp only [isSlugKeep, Bool.or_eq_true] at hkeep
      rcases hkeep with ((halpha | hdig) | hsp) | hhyp
      · obtain ⟨d, -, rfl⟩ := List.mem_map.mp hcmap
        exact Or.inl (asciiLower_alpha_isLower d halpha)
      · exact Or.inr (Or.inl hdig)
      · rw [hsp] at hnsp; cases hnsp
      · exact Or.inr (Or.inr (by simpa using hhyp))
  · have h1 : List.Chain' (fun a b => ¬(a = '-' ∧ b = '-')) t :=
      List.Chain'.prefix (chain'_collapseHyphens _) htpre
    have h2 : List.Chain' (fun a b => ¬(a = '-' ∧ b = '-')) u :=
      List.Chain'.suffix h1 hsuf
    exact List.Chain'.prefix h2 hpre
  · intro habs
    obtain ⟨rest, hrest⟩ := hpre
    have huh : u.head? = some '-' := by
      rw [← hrest, List.head?_append, habs]
      rfl
    have hnb := List.head?_dropWhile_not (fun c => decide (c = '-')) t
    rw [← hu] at hnb
    rw [huh] at hnb
    simp at hnb
  · intro habs
    have hne : res ≠ [] := by
      intro h0
      rw [h0] at habs
      cases habs
    have hlast := List.rdropWhile_last_not (fun c => decide (c = '-')) u hne
    have hlast2 : res.getLast hne = '-' := by
      have := List.getLast?_eq_getLast res hne
      rw [habs] at this
      exact (Option.some.injEq ..).mp this.symm
    rw [hlast2] at hlast
    simp at hlast

/-- Witness for C8 (amended) at concrete pages. -/
theorem C8_witness :
    (darazSearch "NPR" [] none none).length ≤ Config.RESULTS_PER_SITE ∧
    (aliSearch (some { scripts := [], cards := [] })).length ≤
      max (Config.RESULTS_PER_SITE * 0) Config.RESULTS_PER_SITE :=
  ⟨C8_result_caps.1 "NPR" [] none none,
   C8_result_caps.2.2 { scripts := [], cards := [] }⟩

/-- Witness for C10 (amended) at a concrete messy input and a non-negative
bound. -/
theorem C10_witness :
    ((slugify " Hello,  World!! --x ".data 8).length : ℤ) ≤ 8 ∧
    (∀ c ∈ slugify " Hello,  World!! --x ".data 8,
      c.isLower = true ∨ c.isDigit = true ∨ c = '-') ∧
    List.Chain' (fun a b => ¬(a = '-' ∧ b = '-'))
      (slugify " Hello,  World!! --x ".data 8) ∧
    (slugify " Hello,  World!! --x ".data 8).head? ≠ some '-' ∧
    (slugify " Hello,  World!! --x ".data 8).getLast? ≠ some '-' :=
  ⟨(C10_slugify " Hello,  World!! --x ".data 8).1 (by norm_num),
   (C10_slugify " Hello,  World!! --x ".data 8).2.1,
   (C10_slugify " Hello,  World!! --x ".data 8).2.2.1,
   (C10_slugify " Hello,  World!! --x ".data 8).2.2.2.1,
   (C10_slugify " Hello,  World!! --x ".data 8).2.2.2.2⟩
